import Mathlib

/-!
Verification of the xstate-demo repository (okeeffed/demo-xstate-store).

This file shallowly embeds the machines declared in the repository's
TypeScript sources and the runtime semantics they rely on, and proves the
frozen claims about them.

Embedding conventions:
* JS `number` payloads are modelled as `Int` (all values occurring in the
  sources and scenarios are integers).
* JS `string` is `String`, `null`-able strings are `Option String`.
* The xstate transition engine (first-matching-guard selection over the
  ordered candidate list declared under `on:`) is embedded as
  `selectCandidate` / `stepWith`; the per-machine transition tables are
  transcribed from the `createMachine` declarations in `src/`.
* `JSON.stringify` / `JSON.parse` are modelled at the level of the JSON
  document (`JValue`): `stringify` injects a snapshot into the document
  space, `parse` yields the document back; the text layer is the JS JSON
  builtin, external to the repository.
-/

/-- A guarded transition candidate, as declared in an xstate `on:` entry:
a guard over (context, event), a target state id, and an ordered list of
actions (each `assign(...)` call is one action producing a new context). -/
structure Candidate (C E S : Type) where
  guard : C → E → Bool
  target : S
  actions : List (C → E → C)

/-- Thread the context through the candidate's actions in declared order. -/
def applyActions {C E : Type} (acts : List (C → E → C)) (c : C) (e : E) : C :=
  acts.foldl (fun ctx act => act ctx e) c

/-- Modelled from the spec: the transition engine's candidate selection
(spec §4.2; the engine itself is xstate library code, outside src/): scan
the ordered candidate list and take the first one whose guard evaluates
to `true`. -/
def selectCandidate {C E S : Type} (cands : List (Candidate C E S)) (c : C) (e : E) :
    Option (Candidate C E S) :=
  cands.find? (fun cand => cand.guard c e)

/-- Modelled from the spec: one engine step (spec §4.2): if no candidate is
declared or none matches, the event is a no-op (state and context
unchanged, no error); otherwise move to the selected candidate's target
with the actions applied. -/
def stepWith {C E S : Type} (trans : S → E → List (Candidate C E S))
    (s : S) (c : C) (e : E) : S × C :=
  match selectCandidate (trans s e) c e with
  | none => (s, c)
  | some cand => (cand.target, applyActions cand.actions c e)

/-! ## The job-pipeline machine (src/xstate-simulate-job.ts) -/

/-- The state ids of `jobMachine` in src/xstate-simulate-job.ts. -/
inductive JobState where
  | start
  | creatingAsset
  | uploadingAsset
  | emailingClient
  | complete
  | error
deriving DecidableEq, Repr

/-- `JobContext` from src/xstate-simulate-job.ts. -/
structure JobContext where
  assetId : Option String
  uploadUrl : Option String
  emailSent : Bool
  error : Option String
deriving DecidableEq, Repr

/-- `JobEvents` from src/xstate-simulate-job.ts. -/
inductive JobEvent where
  | CREATE_ASSET
  | ASSET_CREATED (assetId : String)
  | UPLOAD_ASSET
  | ASSET_UPLOADED (uploadUrl : String)
  | EMAIL_CLIENT
  | EMAIL_SENT
  | ERROR (message : String)
  | RETRY
deriving DecidableEq, Repr

/-- The machine's initial context (src/xstate-simulate-job.ts, lines 31-36). -/
def jobInitialContext : JobContext :=
  { assetId := none, uploadUrl := none, emailSent := false, error := none }

/-- The `assign({ error: ({event}) => event.message })` action shared by the
three `ERROR` transitions. -/
def errorAssign : JobContext → JobEvent → JobContext := fun c e =>
  match e with
  | .ERROR m => { c with error := some m }
  | _ => c

/-- The ordered `RETRY` candidate list declared on the `error` state
(src/xstate-simulate-job.ts, lines 91-106). -/
def retryTransitions : List (Candidate JobContext JobEvent JobState) :=
  [ { guard := fun c _ => c.assetId.isNone
    , target := .creatingAsset
    , actions := [] }
  , { guard := fun c _ => c.assetId.isSome && c.uploadUrl.isNone
    , target := .uploadingAsset
    , actions := [] }
  , { guard := fun c _ => c.uploadUrl.isSome && !c.emailSent
    , target := .emailingClient
    , actions := [] } ]

/-- The transition table of `jobMachine`, transcribed state by state from
the `states:` declaration in src/xstate-simulate-job.ts. An event type
with no declared entry maps to the empty candidate list (the JS lookup
yields `undefined`, which the engine treats as "no transition"). -/
def jobTransitions : JobState → JobEvent → List (Candidate JobContext JobEvent JobState)
  | .start, .CREATE_ASSET =>
      [ { guard := fun _ _ => true, target := .creatingAsset, actions := [] } ]
  | .creatingAsset, .ASSET_CREATED _ =>
      [ { guard := fun _ _ => true
        , target := .uploadingAsset
        , actions := [fun c e =>
            match e with
            | .ASSET_CREATED a => { c with assetId := some a, error := none }
            | _ => c] } ]
  | .creatingAsset, .ERROR _ =>
      [ { guard := fun _ _ => true, target := .error, actions := [errorAssign] } ]
  | .uploadingAsset, .ASSET_UPLOADED _ =>
      [ { guard := fun _ _ => true
        , target := .emailingClient
        , actions := [fun c e =>
            match e with
            | .ASSET_UPLOADED u => { c with uploadUrl := some u, error := none }
            | _ => c] } ]
  | .uploadingAsset, .ERROR _ =>
      [ { guard := fun _ _ => true, target := .error, actions := [errorAssign] } ]
  | .emailingClient, .EMAIL_SENT =>
      [ { guard := fun _ _ => true
        , target := .complete
        , actions := [fun c _ => { c with emailSent := true, error := none }] } ]
  | .emailingClient, .ERROR _ =>
      [ { guard := fun _ _ => true, target := .error, actions := [errorAssign] } ]
  | .error, .RETRY => retryTransitions
  | _, _ => []

/-- One transition step of the job machine. -/
def jobStep (s : JobState) (c : JobContext) (e : JobEvent) : JobState × JobContext :=
  stepWith jobTransitions s c e

/-- Run the job machine from its initial configuration over an event list. -/
def runJob (evs : List JobEvent) : JobState × JobContext :=
  evs.foldl (fun p e => jobStep p.1 p.2 e) (JobState.start, jobInitialContext)

/-- A configuration is reachable when some finite event sequence produces it. -/
def ReachableJob (p : JobState × JobContext) : Prop :=
  ∃ evs, runJob evs = p

/-- Invariant: outside the final `complete` state, `emailSent` is `false`
(the only action setting it also targets `complete`, which has no exits). -/
def emailSentInv (p : JobState × JobContext) : Prop :=
  p.1 ≠ JobState.complete → p.2.emailSent = false

/-- Characterisation of the `RETRY` guard chain on the `error` state. -/
theorem jobStep_error_retry (c : JobContext) :
    jobStep .error c .RETRY =
      if c.assetId = none then (.creatingAsset, c)
      else if c.uploadUrl = none then (.uploadingAsset, c)
      else if c.emailSent = false then (.emailingClient, c)
      else (.error, c) := by
  rcases ha : c.assetId with _ | a <;> rcases hu : c.uploadUrl with _ | u <;>
    rcases he : c.emailSent with _ | _ <;>
      simp [jobStep, stepWith, selectCandidate, jobTransitions, retryTransitions,
        applyActions, List.find?, ha, hu, he]

/-- Each step preserves `emailSentInv`. -/
theorem jobStep_emailSentInv (s : JobState) (c : JobContext) (e : JobEvent)
    (h : emailSentInv (s, c)) : emailSentInv (jobStep s c e) := by
  cases s <;> cases e
  case error.RETRY =>
    have hes : c.emailSent = false := h (by simp)
    rw [jobStep_error_retry]
    split_ifs <;> exact fun _ => hes
  all_goals
    intro hne
    simp_all [jobStep, stepWith, selectCandidate, jobTransitions, retryTransitions,
      applyActions, List.find?, errorAssign, emailSentInv]

/-- Every reachable configuration satisfies `emailSentInv`. -/
theorem reachable_emailSentInv (p : JobState × JobContext) (h : ReachableJob p) :
    emailSentInv p := by
  obtain ⟨evs, rfl⟩ := h
  have aux : ∀ (l : List JobEvent) (q : JobState × JobContext), emailSentInv q →
      emailSentInv (l.foldl (fun p e => jobStep p.1 p.2 e) q) := by
    intro l
    induction l with
    | nil => intro q hq; exact hq
    | cons e tl ih =>
        intro q hq
        exact ih _ (jobStep_emailSentInv q.1 q.2 e hq)
  exact aux evs (JobState.start, jobInitialContext) (by intro _; rfl)

/-- Claim C1: in the `error` state, `RETRY` routes to `creatingAsset` when
`assetId` is unset, otherwise to `uploadingAsset` when `uploadUrl` is unset,
otherwise to `emailingClient`, for every context reachable in the error
state (the context itself is unchanged, as the RETRY candidates have no
actions). -/
theorem retry_routing_reachable (c : JobContext)
    (h : ReachableJob (JobState.error, c)) :
    jobStep .error c .RETRY =
      (if c.assetId = none then JobState.creatingAsset
       else if c.uploadUrl = none then JobState.uploadingAsset
       else JobState.emailingClient, c) := by
  have hes : c.emailSent = false := reachable_emailSentInv _ h (by simp)
  rw [jobStep_error_retry]
  split_ifs <;> simp_all

/-- Witness for C1 at the reachable error configuration produced by
`CREATE_ASSET` then `ERROR "x"` (Scenario B): `RETRY` routes to
`creatingAsset` since `assetId` is unset. -/
theorem retry_routing_reachable_witness :
    jobStep JobState.error
      { assetId := none, uploadUrl := none, emailSent := false, error := some "x" }
      JobEvent.RETRY
    = (JobState.creatingAsset,
       { assetId := none, uploadUrl := none, emailSent := false, error := some "x" }) := by
  have h := retry_routing_reachable
    { assetId := none, uploadUrl := none, emailSent := false, error := some "x" }
    ⟨[JobEvent.CREATE_ASSET, JobEvent.ERROR "x"], rfl⟩
  simpa using h

/-- Claim C2: the transition engine selects exactly the first candidate (in
declaration order) whose guard evaluates to true on (context, event); all
earlier candidates have false guards, and later matching candidates are
never taken. -/
theorem selectCandidate_first {C E S : Type} (cands : List (Candidate C E S))
    (c : C) (e : E) (i : Nat) (hi : i < cands.length)
    (hg : (cands.get ⟨i, hi⟩).guard c e = true)
    (hlt : ∀ j (hj : j < i), (cands.get ⟨j, Nat.lt_trans hj hi⟩).guard c e = false) :
    selectCandidate cands c e = some (cands.get ⟨i, hi⟩) := by
  induction cands generalizing i with
  | nil => exact absurd hi (by simp)
  | cons hd tl ih =>
    cases i with
    | zero =>
        have hg0 : hd.guard c e = true := hg
        simp [selectCandidate, List.find?, hg0]
    | succ n =>
        have h0 : hd.guard c e = false := hlt 0 (Nat.succ_pos n)
        have hi' : n < tl.length := Nat.lt_of_succ_lt_succ hi
        have hg' : (tl.get ⟨n, hi'⟩).guard c e = true := hg
        have hlt' : ∀ j (hj : j < n), (tl.get ⟨j, Nat.lt_trans hj hi'⟩).guard c e = false :=
          fun j hj => hlt (j + 1) (Nat.succ_lt_succ hj)
        have ih' := ih n hi' hg' hlt'
        simp only [selectCandidate, List.find?] at ih' ⊢
        simp [h0, ih']

/-- Witness for C2 on the job machine's `RETRY` candidate list: with
`assetId` set and `uploadUrl` unset, the first guard is false and the
second is the first true one, so the engine selects candidate 1. -/
theorem selectCandidate_first_witness :
    selectCandidate retryTransitions
      { assetId := some "a", uploadUrl := none, emailSent := false, error := some "x" }
      JobEvent.RETRY
    = some (retryTransitions.get ⟨1, by decide⟩) :=
  selectCandidate_first retryTransitions _ _ 1 (by decide) rfl
    (fun j hj => by
      have hj0 : j = 0 := Nat.lt_one_iff.mp hj
      subst hj0
      rfl)

/-- Claim C3: for every state, context, and event whose declared candidate
list for that (state, event type) is empty or has all guards false,
processing the event is a no-op: state value and context are unchanged
(the embedding is total, so no error is raised). -/
theorem jobStep_noop (s : JobState) (c : JobContext) (e : JobEvent)
    (h : ∀ cand ∈ jobTransitions s e, cand.guard c e = false) :
    jobStep s c e = (s, c) := by
  have hnone : selectCandidate (jobTransitions s e) c e = none := by
    apply List.find?_eq_none.mpr
    intro cand hc
    simp [h cand hc]
  simp [jobStep, stepWith, hnone]

/-- Witness for C3: `RETRY` is not declared in the `start` state, so it is
a no-op there. -/
theorem jobStep_noop_witness :
    jobStep JobState.start jobInitialContext JobEvent.RETRY
      = (JobState.start, jobInitialContext) :=
  jobStep_noop _ _ _
    (by simp [show jobTransitions JobState.start JobEvent.RETRY = [] from rfl])

/-! ## Snapshot codec (src/xstate-simulate-job.ts, serializeState /
createActorFromSerializedState)

`serializeState` is `JSON.stringify(actor.getSnapshot())` and
`createActorFromSerializedState` is `JSON.parse` followed by an unchecked
type cast and an unconditional `createActor(jobMachine, { snapshot })`.
The codec is modelled at the level of the JSON document: `JValue` is the
abstract JSON value that `JSON.stringify` renders and `JSON.parse`
recovers (the text layer is the JS JSON builtin, external to this
repository). -/

/-- Abstract JSON document values (objects keep field order, as
`JSON.stringify` / `JSON.parse` do). -/
inductive JValue where
  | null : JValue
  | bool : Bool → JValue
  | num : Int → JValue
  | str : String → JValue
  | obj : List (String × JValue) → JValue

/-- A nullable string rendered as JSON. -/
def jsonOfOptionString : Option String → JValue
  | none => .null
  | some s => .str s

/-- Read a nullable string back from a JSON value. -/
def optionStringOfJson : JValue → Option (Option String)
  | .null => some none
  | .str s => some (some s)
  | _ => none

/-- Actor status, per the spec's Snapshot data model (`active`, `done`,
`errored`, `stopped`). -/
inductive JobStatus where
  | active
  | done
  | errored
  | stopped
deriving DecidableEq, Repr

/-- Wire string of a status. -/
def statusString : JobStatus → String
  | .active => "active"
  | .done => "done"
  | .errored => "error"
  | .stopped => "stopped"

/-- Inverse of `statusString`. -/
def statusOfString (s : String) : Option JobStatus :=
  if s = "active" then some .active
  else if s = "done" then some .done
  else if s = "error" then some .errored
  else if s = "stopped" then some .stopped
  else none

/-- Wire string of a job state id (the `value` field). -/
def stateString : JobState → String
  | .start => "start"
  | .creatingAsset => "creatingAsset"
  | .uploadingAsset => "uploadingAsset"
  | .emailingClient => "emailingClient"
  | .complete => "complete"
  | .error => "error"

/-- Inverse of `stateString`. -/
def stateOfString (s : String) : Option JobState :=
  if s = "start" then some .start
  else if s = "creatingAsset" then some .creatingAsset
  else if s = "uploadingAsset" then some .uploadingAsset
  else if s = "emailingClient" then some .emailingClient
  else if s = "complete" then some .complete
  else if s = "error" then some .error
  else none

/-- The externally visible snapshot of the job actor: `status`, `value`
(current state), `context`, and the nullable top-level `error`, per the
spec's Snapshot wire format. -/
structure JobSnapshot where
  status : JobStatus
  value : JobState
  context : JobContext
  error : Option String
deriving DecidableEq, Repr

/-- `serializeState` (src/xstate-simulate-job.ts, lines 114-117): the JSON
document `JSON.stringify` produces for the actor's snapshot. -/
def serializeState (s : JobSnapshot) : JValue :=
  .obj [ ("status", .str (statusString s.status))
       , ("value", .str (stateString s.value))
       , ("context", .obj
           [ ("assetId", jsonOfOptionString s.context.assetId)
           , ("uploadUrl", jsonOfOptionString s.context.uploadUrl)
           , ("emailSent", .bool s.context.emailSent)
           , ("error", jsonOfOptionString s.context.error) ])
       , ("error", jsonOfOptionString s.error) ]

/-- JS property lookup on a parsed JSON object: first field with the key. -/
def jlookup (fields : List (String × JValue)) (k : String) : Option JValue :=
  (fields.find? (fun p => p.1 == k)).map (fun p => p.2)

/-- Modelled from the spec: the snapshot restoration that `createActor`
performs on a deserialized document (reading `status`, `value`, `context`
and `error`). The repository's own deserialization is only `JSON.parse`
plus an unchecked type cast, so the field-by-field recovery lives in the
xstate library, outside src/; it is modelled here from the spec's wire
format of §6 and the codec contract of §4.5. -/
def deserializeSnapshot (v : JValue) : Option JobSnapshot :=
  match v with
  | .obj fields =>
    match jlookup fields "status", jlookup fields "value",
          jlookup fields "context", jlookup fields "error" with
    | some (.str st), some (.str sv), some (.obj cf), some ej =>
      match statusOfString st, stateOfString sv, optionStringOfJson ej with
      | some status, some value, some err =>
        match jlookup cf "assetId", jlookup cf "uploadUrl",
              jlookup cf "emailSent", jlookup cf "error" with
        | some ja, some ju, some (.bool es), some je =>
          match optionStringOfJson ja, optionStringOfJson ju,
                optionStringOfJson je with
          | some aid, some uurl, some cerr =>
              some { status := status, value := value
                   , context := { assetId := aid, uploadUrl := uurl
                                , emailSent := es, error := cerr }
                   , error := err }
          | _, _, _ => none
        | _, _, _, _ => none
      | _, _, _ => none
    | _, _, _, _ => none
  | _ => none

/-- The actor value produced by `createActorFromSerializedState`
(src/xstate-simulate-job.ts, lines 119-129): `createActor` is called
unconditionally with whatever document `JSON.parse` produced (`raw`); the
state/context the actor resumes in is the restoration of that document
(`snapshot`). No validation happens in the repository's code. -/
structure JobActorModel where
  raw : JValue
  snapshot : Option JobSnapshot

/-- `createActorFromSerializedState`: parse result in, actor out,
unconditionally. -/
def createActorFromSerializedState (v : JValue) : JobActorModel :=
  { raw := v, snapshot := deserializeSnapshot v }

/-- Claim C4: for every Snapshot (in particular every reachable one),
deserializing its serialized document recovers it field-for-field:
`status`, `value`, all `context` fields and the top-level `error` survive
the round trip exactly. -/
theorem deserialize_serializeState (s : JobSnapshot) :
    deserializeSnapshot (serializeState s) = some s := by
  obtain ⟨st, v, ⟨a, u, es, ce⟩, er⟩ := s
  cases st <;> cases v <;> cases a <;> cases u <;> cases ce <;> cases er <;> rfl

/-- Claim C5 (Scenario C): reconstructing an actor from the snapshot
serialized at `uploadingAsset` with `assetId = "a1"` resumes in exactly
that state and context, and sending `ASSET_UPLOADED{uploadUrl:"u"}` then
behaves as a normal transition: state `emailingClient`, context carrying
both `assetId = "a1"` and `uploadUrl = "u"`. -/
theorem resume_from_serialized_scenario :
    (createActorFromSerializedState (serializeState
        { status := .active, value := .uploadingAsset
        , context := { assetId := some "a1", uploadUrl := none
                     , emailSent := false, error := none }
        , error := none })).snapshot
      = some { status := .active, value := .uploadingAsset
             , context := { assetId := some "a1", uploadUrl := none
                          , emailSent := false, error := none }
             , error := none }
    ∧ jobStep .uploadingAsset
        { assetId := some "a1", uploadUrl := none, emailSent := false, error := none }
        (.ASSET_UPLOADED "u")
      = (.emailingClient,
         { assetId := some "a1", uploadUrl := some "u"
         , emailSent := false, error := none }) :=
  ⟨rfl, rfl⟩

/-- Counterexample to claim C6: the document `42` is valid JSON but not a
well-formed serialized Snapshot (it is outside `serializeState`'s range),
yet `createActorFromSerializedState` raises no decoding failure and
constructs an actor from it — the code parses and casts without any
validation. -/
theorem deserialize_malformed_constructs_actor :
    (∀ s : JobSnapshot, serializeState s ≠ JValue.num 42)
    ∧ (createActorFromSerializedState (JValue.num 42)).raw = JValue.num 42
    ∧ (createActorFromSerializedState (JValue.num 42)).snapshot = none :=
  ⟨fun s h => by simp [serializeState] at h, rfl, rfl⟩

/-- Claim C6 as amended: for well-formed JSON that is not a valid
serialized Snapshot, the code performs no validation: an Actor is
constructed carrying the parsed document verbatim, and its restored
snapshot is empty rather than silently defaulted. (Only syntactically
invalid JSON text makes `JSON.parse` throw before `createActor` runs;
that text layer is outside the document-level model.) -/
theorem createActor_no_validation (v : JValue)
    (h : deserializeSnapshot v = none) :
    (createActorFromSerializedState v).raw = v
    ∧ (createActorFromSerializedState v).snapshot = none :=
  ⟨rfl, by simp [createActorFromSerializedState, h]⟩

/-- Witness for the amended C6 at the malformed document `42`. -/
theorem createActor_no_validation_witness :
    (createActorFromSerializedState (JValue.num 42)).raw = JValue.num 42
    ∧ (createActorFromSerializedState (JValue.num 42)).snapshot = none :=
  createActor_no_validation (JValue.num 42) rfl

/-! ## The train machines (src/blog-xstate.ts, src/blog-xstate-store.ts,
src/unnamed/part_000)

`trainMachine` has a single (root) state — all `on:` entries are declared
at the machine root — so a step maps context to context; the state value
never changes. -/

/-- `TrainState` context interface from src/blog-xstate.ts. -/
structure TrainContext where
  passengers : Int
  fuel : Int
  atStation : String
deriving DecidableEq, Repr

/-- The train `Events` union. -/
inductive TrainEvent where
  | BOARD (count : Int)
  | DEPART (dest : String)
  | REFUEL (amount : Int)
deriving DecidableEq, Repr

/-- The initial train context `{passengers: 0, fuel: 100, atStation:
"Central"}`. -/
def trainInitialContext : TrainContext :=
  { passengers := 0, fuel := 100, atStation := "Central" }

/-- One step of `trainMachine` (src/blog-xstate.ts, lines 46-67): BOARD
adds the boarding count; DEPART is guarded by `fuel >= 10` and then burns
10 fuel and moves to the destination; REFUEL adds fuel capped at 100 via
`Math.min`. -/
def trainStep (c : TrainContext) : TrainEvent → TrainContext
  | .BOARD n => { c with passengers := c.passengers + n }
  | .DEPART d =>
      if c.fuel ≥ 10 then { c with fuel := c.fuel - 10, atStation := d } else c
  | .REFUEL a => { c with fuel := min (c.fuel + a) 100 }

/-- One transition of `trainStore` (src/blog-xstate-store.ts, lines 47-60;
identically src/unnamed/part_000, lines 42-58): the Immer producer
mutates a draft, whose committed result is this pure update. -/
def trainStoreStep (c : TrainContext) : TrainEvent → TrainContext
  | .BOARD n => { c with passengers := c.passengers + n }
  | .DEPART d =>
      if c.fuel ≥ 10 then { c with fuel := c.fuel - 10, atStation := d } else c
  | .REFUEL a => { c with fuel := min (c.fuel + a) 100 }

/-- The store variant and the machine variant implement the same update. -/
theorem trainStoreStep_eq_trainStep (c : TrainContext) (e : TrainEvent) :
    trainStoreStep c e = trainStep c e := by
  cases e <;> rfl

/-- Run the train machine from its initial context over an event list. -/
def runTrain (evs : List TrainEvent) : TrainContext :=
  evs.foldl trainStep trainInitialContext

/-- Claim C8 (Scenario A): from the initial context, `BOARD{count:50}`
yields `{50,100,"Central"}`; then `DEPART{destination:"North Station"}`
yields `{50,90,"North Station"}`; and from any context with fuel below
10, `DEPART` is a no-op (guard `fuel >= 10` fails), leaving the context —
and hence the machine's sole state — unchanged. -/
theorem train_scenario_board_depart :
    trainStep trainInitialContext (.BOARD 50)
      = { passengers := 50, fuel := 100, atStation := "Central" }
    ∧ trainStep { passengers := 50, fuel := 100, atStation := "Central" }
        (.DEPART "North Station")
      = { passengers := 50, fuel := 90, atStation := "North Station" }
    ∧ ∀ (c : TrainContext) (d : String), c.fuel < 10 → trainStep c (.DEPART d) = c := by
  refine ⟨rfl, rfl, ?_⟩
  intro c d h
  simp only [trainStep]
  rw [if_neg (by omega)]

/-- Witness for C8's guarded no-op clause: with fuel forced to 5,
`DEPART "X"` leaves the context unchanged. -/
theorem train_scenario_board_depart_witness :
    ((5 : Int) < 10)
    ∧ trainStep { passengers := 50, fuel := 5, atStation := "North Station" }
        (.DEPART "X")
      = { passengers := 50, fuel := 5, atStation := "North Station" } :=
  ⟨by decide, train_scenario_board_depart.2.2 _ "X" (by decide)⟩

/-- Counterexample to claim C10: `REFUEL` with a negative amount (a
well-typed event — the payload is a JS `number`) drives fuel below 0:
`Math.min` caps fuel from above only. After `REFUEL{amount: -200}` from
the initial context, fuel is -100. -/
theorem train_fuel_invariant_cex :
    (runTrain [TrainEvent.REFUEL (-200)]).fuel = -100
    ∧ ¬ (0 ≤ (runTrain [TrainEvent.REFUEL (-200)]).fuel) :=
  ⟨by decide, by decide⟩

/-- Claim C10 as amended: starting from the initial context (fuel 100),
after any finite sequence of BOARD, DEPART, and REFUEL events in which
every REFUEL amount is nonnegative, the fuel satisfies 0 ≤ fuel ≤ 100
(REFUEL caps fuel at 100 via Math.min; DEPART only subtracts 10 when
fuel ≥ 10). -/
theorem train_fuel_invariant (evs : List TrainEvent)
    (h : ∀ a, TrainEvent.REFUEL a ∈ evs → 0 ≤ a) :
    0 ≤ (runTrain evs).fuel ∧ (runTrain evs).fuel ≤ 100 := by
  have aux : ∀ (l : List TrainEvent) (c : TrainContext),
      (∀ a, TrainEvent.REFUEL a ∈ l → 0 ≤ a) →
      0 ≤ c.fuel → c.fuel ≤ 100 →
      0 ≤ (l.foldl trainStep c).fuel ∧ (l.foldl trainStep c).fuel ≤ 100 := by
    intro l
    induction l with
    | nil => intro c _ h0 h1; exact ⟨h0, h1⟩
    | cons e tl ih =>
        intro c hl h0 h1
        have htl : ∀ a, TrainEvent.REFUEL a ∈ tl → 0 ≤ a :=
          fun a ha => hl a (List.mem_cons_of_mem _ ha)
        cases e with
        | BOARD n => exact ih _ htl h0 h1
        | DEPART d =>
            by_cases hf : c.fuel ≥ 10
            · refine ih _ htl ?_ ?_ <;> (simp [trainStep, if_pos hf]; omega)
            · refine ih _ htl ?_ ?_ <;> (simp [trainStep, if_neg hf]; omega)
        | REFUEL a =>
            have ha : 0 ≤ a := hl a (List.mem_cons_self _ _)
            refine ih _ htl ?_ ?_ <;> (simp [trainStep]; try omega)
  exact aux evs trainInitialContext h (by decide) (by decide)

/-- Witness for the amended C10 on Scenario A's event prefix (all REFUEL
amounts nonnegative). -/
theorem train_fuel_invariant_witness :
    0 ≤ (runTrain [TrainEvent.BOARD 50, TrainEvent.DEPART "North Station",
                   TrainEvent.REFUEL 20]).fuel
    ∧ (runTrain [TrainEvent.BOARD 50, TrainEvent.DEPART "North Station",
                 TrainEvent.REFUEL 20]).fuel ≤ 100 :=
  train_fuel_invariant _ (by intro a ha; simp at ha; omega)

/-! ## Copy-on-write isolation (src/store-as-xstate.ts, src/store.ts,
src/unnamed/part_001)

JS arrays are heap references shared between object copies, so the
`addTodo` action of src/store-as-xstate.ts — which calls
`context.todos.push(event.todo)` inside `assign` and returns the same
array — is embedded with an explicit heap of arrays. -/

/-- A heap of JS string arrays; an array reference is an index into it. -/
structure JSHeap where
  arrays : List (List String)
deriving DecidableEq, Repr

/-- Dereference an array. -/
def readArray (h : JSHeap) (r : Nat) : List String :=
  (h.arrays.get? r).getD []

/-- `arr.push(x)`: in-place append to the referenced array. -/
def pushArray (h : JSHeap) (r : Nat) (x : String) : JSHeap :=
  { arrays := h.arrays.set r (readArray h r ++ [x]) }

/-- The context of the store-as-xstate machine: `count` and a reference to
the `todos` array. -/
structure StoreAsXContext where
  count : Int
  todos : Nat
deriving DecidableEq, Repr

/-- The `addTodo` assign action of src/store-as-xstate.ts (lines 36-43):
`context.todos.push(event.todo); return context.todos;` — the heap array
is mutated in place, and the produced context holds the same reference. -/
def addTodoAssign (h : JSHeap) (c : StoreAsXContext) (todo : String) :
    JSHeap × StoreAsXContext :=
  (pushArray h c.todos todo, { c with todos := c.todos })

/-- Claim C7 fails on src/store-as-xstate.ts: from the machine's initial
configuration (heap holding one empty array, context `{count:0, todos:[]}`),
applying the `addTodo` action with `"Buy milk"` mutates the array the
ORIGINAL context references: reading the pre-update context's `todos`
through the post-update heap yields `["Buy milk"]`, not the pre-update
value `[]`; the new context aliases the same array. This contradicts the
copy-on-write contract (the sibling implementations in src/store.ts via
Immer and src/unnamed/part_001 via `concat` are non-mutating). -/
theorem addTodo_mutates_original_context :
    readArray { arrays := [[]] } 0 = []
    ∧ (addTodoAssign { arrays := [[]] } { count := 0, todos := 0 } "Buy milk").2.todos = 0
    ∧ readArray (addTodoAssign { arrays := [[]] }
        { count := 0, todos := 0 } "Buy milk").1 0 = ["Buy milk"]
    ∧ (["Buy milk"] : List String) ≠ ([] : List String) :=
  ⟨rfl, rfl, rfl, by simp⟩

/-! ## Subscription semantics (src/store.ts, src/blog-xstate.ts) -/

/-- A store with its subscriber bookkeeping: the current context snapshot,
a fresh-id counter, the subscriber ids in subscription order, and the
accumulated callback invocations (subscriber id, delivered snapshot) in
delivery order. -/
structure SubscribedStore (C : Type) where
  context : C
  nextId : Nat
  subs : List Nat
  log : List (Nat × C)
deriving DecidableEq, Repr

/-- Modelled from the spec: `subscribe(callback) → unsubscribeHandle` of the
store/actor runtime (the `@xstate/store` / xstate library, outside src/),
per §4.4 — except that, following the behaviour documented by the
expected-output comments of src/store.ts (lines 36-47, which show no
callback output at subscription time), subscribing does NOT invoke the
callback immediately: no log entry is produced. -/
def subscribeStore {C : Type} (st : SubscribedStore C) : SubscribedStore C × Nat :=
  ({ st with nextId := st.nextId + 1, subs := st.subs ++ [st.nextId] }, st.nextId)

/-- Modelled from the spec: releasing a subscription (§4.4); the id stops
receiving notifications. -/
def unsubscribeStore {C : Type} (st : SubscribedStore C) (i : Nat) : SubscribedStore C :=
  { st with subs := st.subs.filter (fun j => j != i) }

/-- Modelled from the spec: `send(event)` of the store/actor runtime (§4.4):
the event is processed into a new committed snapshot, which is then
published to every current subscriber, synchronously and in subscription
order, before the next event is accepted. -/
def sendStore {C E : Type} (step : C → E → C) (st : SubscribedStore C) (e : E) :
    SubscribedStore C :=
  let c2 := step st.context e
  { st with context := c2, log := st.log ++ st.subs.map (fun i => (i, c2)) }

/-- `ExampleStoreState` from src/store.ts. -/
structure ExampleContext where
  count : Int
  todos : List String
deriving DecidableEq, Repr

/-- The event union of `exampleStore` in src/store.ts. -/
inductive ExampleEvent where
  | inc (amount : Int)
  | addTodo (todo : String)
deriving DecidableEq, Repr

/-- The `exampleStore` transitions of src/store.ts (lines 15-24): the
committed results of the Immer producers `context.count += event.by` and
`context.todos.push(event.todo)`. -/
def exampleStep (c : ExampleContext) : ExampleEvent → ExampleContext
  | .inc n => { c with count := c.count + n }
  | .addTodo t => { c with todos := c.todos ++ [t] }

/-- The example store as created in src/store.ts: initial context
`{count: 0, todos: []}`, no subscribers yet, nothing delivered. -/
def exampleInitialStore : SubscribedStore ExampleContext :=
  { context := { count := 0, todos := [] }, nextId := 0, subs := [], log := [] }

/-- Counterexample to claim C9: subscribing to the example store invokes no
callback — the delivery log stays empty, whereas the claim requires one
immediate invocation with the current snapshot (which would log the
initial context). After the first `send {type:"inc", by:2}` the log holds
exactly one invocation carrying `{count: 2, todos: []}` — precisely the
output documented in src/store.ts (lines 42-43), which shows no log line
at subscription time. -/
theorem subscribe_no_immediate_invocation :
    (subscribeStore exampleInitialStore).1.log = []
    ∧ (sendStore exampleStep (subscribeStore exampleInitialStore).1
        (.inc 2)).log
      = [((subscribeStore exampleInitialStore).2,
          { count := 2, todos := [] })]
    ∧ ([] : List (Nat × ExampleContext))
      ≠ [((subscribeStore exampleInitialStore).2, exampleInitialStore.context)] :=
  ⟨rfl, rfl, by simp⟩

/-- Claim C9 as amended: subscribing invokes no callback immediately; each
committed snapshot change then invokes every current subscriber's callback
exactly once, in subscription order, with the committed snapshot; ids not
subscribed (never subscribed, or removed) receive nothing. -/
theorem subscriber_notification (st : SubscribedStore ExampleContext)
    (e : ExampleEvent) (hnd : st.subs.Nodup) :
    (subscribeStore st).1.log = st.log
    ∧ (sendStore exampleStep st e).log
        = st.log ++ st.subs.map (fun i => (i, exampleStep st.context e))
    ∧ (∀ i, i ∈ st.subs →
        ((sendStore exampleStep st e).log.filter (fun p => p.1 == i)).length
          = (st.log.filter (fun p => p.1 == i)).length + 1)
    ∧ (∀ i, i ∉ st.subs →
        (sendStore exampleStep st e).log.filter (fun p => p.1 == i)
          = st.log.filter (fun p => p.1 == i)) := by
  refine ⟨rfl, rfl, ?_, ?_⟩
  · intro i hi
    have hmap : (st.subs.map (fun j => (j, exampleStep st.context e))).filter
        (fun p => p.1 == i)
        = (st.subs.filter (fun j => j == i)).map
            (fun j => (j, exampleStep st.context e)) := by
      rw [List.filter_map]
      rfl
    have hcount : (st.subs.filter (fun j => j == i)).length = 1 := by
      rw [← List.countP_eq_length_filter]
      exact List.count_eq_one_of_mem hnd hi
    simp [sendStore, List.filter_append, hmap, hcount]
  · intro i hi
    have hmap : (st.subs.map (fun j => (j, exampleStep st.context e))).filter
        (fun p => p.1 == i) = [] := by
      rw [List.filter_eq_nil_iff]
      intro p hp
      obtain ⟨j, hj, rfl⟩ := List.mem_map.mp hp
      simp only [beq_iff_eq]
      intro hji
      exact hi (hji ▸ hj)
    simp [sendStore, List.filter_append, hmap]

/-- Witness for the amended C9: one subscriber (id 0), send `inc 2`; the
callback is invoked exactly once with the committed snapshot. -/
theorem subscriber_notification_witness :
    (sendStore exampleStep
        { context := { count := 0, todos := [] }, nextId := 1
        , subs := [0], log := [] }
        (.inc 2)).log
      = [(0, { count := 2, todos := [] })] := by
  have h := subscriber_notification
    { context := { count := 0, todos := [] }, nextId := 1, subs := [0], log := [] }
    (.inc 2) (by decide)
  simpa [exampleStep] using h.2.1

/-- After `unsubscribe`, the handle's id is no longer among the notified
subscribers (so, by `subscriber_notification`'s last clause, it receives
no further deliveries). -/
theorem unsubscribeStore_not_mem {C : Type} (st : SubscribedStore C) (i : Nat) :
    i ∉ (unsubscribeStore st i).subs := by
  intro hmem
  simp only [unsubscribeStore] at hmem
  have := List.of_mem_filter hmem
  simp at this
